import Mathlib

/-!
Verification of the halorides lead-form landing page.

The development embeds, at the level of characters and explicit state:
* the zod `formSchema` of the Home page (`parentName`, `childGrade`,
  `schoolName`, `city`, `mobileNumber`, `email`) with JavaScript regex
  semantics for the character classes involved;
* the submit flow (`form.handleSubmit(onSubmit)`): validation first, then a
  single `apiRequest("POST", "/api/leads", data)`, a toast, and `form.reset()`
  on success;
* the Supabase configuration loader `initSupabase` / `getSupabase` with its
  module-level client cache;
* the `App` component's loading / error / main view selection.
-/

namespace Halorides

/-! ## Character classes (JavaScript regex semantics) -/

/-- `[a-zA-Z]`: an ASCII letter. -/
def isAsciiAlpha (c : Char) : Bool :=
  ('a' ≤ c && c ≤ 'z') || ('A' ≤ c && c ≤ 'Z')

/-- `[0-9]` — also JavaScript `\d`, which matches only ASCII digits. -/
def isAsciiDigit (c : Char) : Bool :=
  '0' ≤ c && c ≤ '9'

/-- `[a-zA-Z0-9]`: an ASCII letter or digit. -/
def isAsciiAlphaNum (c : Char) : Bool :=
  isAsciiAlpha c || isAsciiDigit c

/-- JavaScript `\s`: the WhiteSpace and LineTerminator code points
(tab, LF, VT, FF, CR, space, NBSP, Ogham space, the U+2000–U+200A range,
LS, PS, NNBSP, MMSP, ideographic space, BOM). -/
def isJsWhitespace (c : Char) : Bool :=
  c.val == 0x9 || c.val == 0xA || c.val == 0xB || c.val == 0xC || c.val == 0xD ||
  c.val == 0x20 || c.val == 0xA0 || c.val == 0x1680 ||
  (0x2000 ≤ c.val && c.val ≤ 0x200A) ||
  c.val == 0x2028 || c.val == 0x2029 || c.val == 0x202F || c.val == 0x205F ||
  c.val == 0x3000 || c.val == 0xFEFF

/-- The character class `[a-zA-Z\s]` used by the name, school and city
patterns. -/
def isAlphaOrSpace (c : Char) : Bool :=
  isAsciiAlpha c || isJsWhitespace c

/-- JavaScript `String.prototype.length`: UTF-16 code units (astral code
points count twice).  `z.string().min(n)` compares this length. -/
def utf16Len (s : String) : Nat :=
  (s.data.map fun c => if c.val < 0x10000 then 1 else 2).sum

/-- `/^[a-zA-Z\s]+$/` on a whole string. -/
def matchesAlphaSpacePlus (s : String) : Bool :=
  !s.data.isEmpty && s.data.all isAlphaOrSpace

/-- `/^[a-zA-Z\s]*$/` on a whole string. -/
def matchesAlphaSpaceStar (s : String) : Bool :=
  s.data.all isAlphaOrSpace

/-- `/^\d{10}$/` on a whole string: exactly ten ASCII digits. -/
def matchesTenDigits (s : String) : Bool :=
  s.data.length == 10 && s.data.all isAsciiDigit

/-! ## zod's email check

`z.string().email()` tests
`/^(?!\.)(?!.*\.\.)([A-Za-z0-9_'+\-\.]*)[A-Za-z0-9_+-]@([A-Za-z0-9][A-Za-z0-9\-]*\.)+[A-Za-z]{2,}$/`.
We implement it by splitting at separators; the apostrophe of the local-part
class is written by code point 39. -/

/-- Split a character list at every occurrence of `sep`
(like JavaScript `String.prototype.split` with a one-character separator). -/
def splitOnChar (sep : Char) : List Char → List (List Char)
  | [] => [[]]
  | c :: rest =>
    match splitOnChar sep rest with
    | [] => if c = sep then [[], [c]] else [[c]]
    | h :: t => if c = sep then [] :: h :: t else (c :: h) :: t

/-- Characters allowed anywhere in the local part: `[A-Za-z0-9_'+\-\.]`. -/
def isLocalChar (c : Char) : Bool :=
  isAsciiAlphaNum c || c = '_' || c.val == 39 || c = '+' || c = '-' || c = '.'

/-- Characters allowed as the final local-part character: `[A-Za-z0-9_+-]`. -/
def isLocalLastChar (c : Char) : Bool :=
  isAsciiAlphaNum c || c = '_' || c = '+' || c = '-'

/-- No two consecutive dots (the `(?!.*\.\.)` lookahead). -/
def noDoubleDot : List Char → Bool
  | [] => true
  | [_] => true
  | a :: b :: rest => !(a = '.' && b = '.') && noDoubleDot (b :: rest)

/-- The local part: nonempty, no leading dot, no `..`, all characters from
the local class, ending in a character from the restricted class. -/
def localPartOk (l : List Char) : Bool :=
  match l with
  | [] => false
  | c :: _ =>
    !(c = '.') && l.all isLocalChar && noDoubleDot l &&
    (match l.getLast? with
     | some lc => isLocalLastChar lc
     | none => false)

/-- A domain label `[A-Za-z0-9][A-Za-z0-9\-]*`. -/
def labelOk (l : List Char) : Bool :=
  match l with
  | [] => false
  | c :: rest => isAsciiAlphaNum c && rest.all fun d => isAsciiAlphaNum d || d = '-'

/-- The final label `[A-Za-z]{2,}`. -/
def tldOk (l : List Char) : Bool :=
  decide (2 ≤ l.length) && l.all isAsciiAlpha

/-- The domain `([A-Za-z0-9][A-Za-z0-9\-]*\.)+[A-Za-z]{2,}`. -/
def domainOk (d : List Char) : Bool :=
  let parts := splitOnChar '.' d
  decide (2 ≤ parts.length) && parts.dropLast.all labelOk &&
  (match parts.getLast? with
   | some t => tldOk t
   | none => false)

/-- `z.string().email()` on a whole string. -/
def isEmail (s : String) : Bool :=
  match splitOnChar '@' s.data with
  | [l, d] => localPartOk l && domainOk d
  | _ => false

/-! ## The form payload and the zod `formSchema` -/

/-- The values held by the lead form.  `schoolName` and `email` are declared
`.optional()` in the schema, so an absent value (`none`) is admissible; the
form's `defaultValues` give both the empty string. -/
structure LeadForm where
  parentName : String
  childGrade : String
  schoolName : Option String
  city : String
  mobileNumber : String
  email : Option String
deriving DecidableEq, Repr

/-- The form fields, as the zodResolver keys field-level errors. -/
inductive Field
  | parentName | childGrade | schoolName | city | mobileNumber | email
deriving DecidableEq, Repr

/-- `parentName: z.string().min(2).regex(/^[a-zA-Z\s]+$/)` — zod collects
every failing check's issue. -/
def checkParentName (s : String) : List (Field × String) :=
  (if utf16Len s < 2 then [(Field.parentName, "Name must be at least 2 characters")] else []) ++
  (if matchesAlphaSpacePlus s then [] else [(Field.parentName, "Only alphabets allowed")])

/-- `childGrade: z.string().min(1)`. -/
def checkChildGrade (s : String) : List (Field × String) :=
  if utf16Len s < 1 then [(Field.childGrade, "Please select a grade")] else []

/-- `schoolName: z.string().regex(/^[a-zA-Z\s]*$/).optional()`. -/
def checkSchoolName : Option String → List (Field × String)
  | none => []
  | some s => if matchesAlphaSpaceStar s then [] else [(Field.schoolName, "Only alphabets allowed")]

/-- `city: z.string().min(2).regex(/^[a-zA-Z\s]+$/)`. -/
def checkCity (s : String) : List (Field × String) :=
  (if utf16Len s < 2 then [(Field.city, "City must be at least 2 characters")] else []) ++
  (if matchesAlphaSpacePlus s then [] else [(Field.city, "Only alphabets allowed")])

/-- `mobileNumber: z.string().regex(/^\d{10}$/)`. -/
def checkMobileNumber (s : String) : List (Field × String) :=
  if matchesTenDigits s then [] else [(Field.mobileNumber, "Must be exactly 10 digits")]

/-- `email: z.string().email().optional()` — an absent value passes, but any
present string, the empty string included, must satisfy the email check. -/
def checkEmail : Option String → List (Field × String)
  | none => []
  | some s => if isEmail s then [] else [(Field.email, "Please enter a valid email address")]

/-- `formSchema.safeParse`: the field-level issues of a payload, in the
field order of the `z.object`. -/
def validate (f : LeadForm) : List (Field × String) :=
  checkParentName f.parentName ++ checkChildGrade f.childGrade ++
  checkSchoolName f.schoolName ++ checkCity f.city ++
  checkMobileNumber f.mobileNumber ++ checkEmail f.email

/-- The `gradeOptions` array declared in the Home component. -/
def gradeOptions : List String :=
  ["Class 1", "Class 2", "Class 3", "Class 4", "Class 5", "Class 6",
   "Class 7", "Class 8", "Class 9", "Class 10", "Class 11", "Class 12"]

/-- The `SelectItem` values actually offered by the grade dropdowns. -/
def gradeSelectItems : List String :=
  ["Pre-primary", "Lower primary", "Higher primary", "Secondary", "Higher secondary"]

/-- The `defaultValues` passed to `useForm`: every field the empty string. -/
def defaultValues : LeadForm :=
  { parentName := "", childGrade := "", schoolName := some "",
    city := "", mobileNumber := "", email := some "" }

/-! ## The submit flow

`form.handleSubmit(onSubmit)` runs the zodResolver first; `onSubmit` is
reached only when validation succeeds.  `onSubmit` awaits a single
`apiRequest("POST", "/api/leads", data)`, shows a success toast and calls
`form.reset()` on success, and shows a destructive toast — leaving the form
values untouched — when the request throws.  Nothing is retried. -/

/-- One network request issued by the submit flow. -/
structure Request where
  method : String
  url : String
  body : LeadForm
deriving DecidableEq, Repr

/-- Outcome of the awaited `apiRequest` call: resolved, or threw. -/
inductive ApiResult
  | success
  | failure
deriving DecidableEq, Repr

/-- A toast raised by `useToast`. -/
structure Toast where
  title : String
  destructive : Bool
deriving DecidableEq, Repr

/-- The success toast of `onSubmit`. -/
def successToast : Toast :=
  { title := "Form submitted successfully!", destructive := false }

/-- The error toast of `onSubmit`'s catch branch. -/
def errorToast : Toast :=
  { title := "Error submitting form", destructive := true }

/-- Everything observable about one submit attempt: the requests issued, the
toast shown, and the form values afterwards. -/
structure SubmitOutcome where
  requests : List Request
  toast : Option Toast
  formState : LeadForm
deriving DecidableEq, Repr

/-- `form.handleSubmit(onSubmit)` on current values `f`, with the api call
resolving as `api`: invalid values stop before any request; valid values
issue exactly one POST to `/api/leads`, then toast and (on success) reset. -/
def handleSubmit (f : LeadForm) (api : ApiResult) : SubmitOutcome :=
  if validate f = [] then
    match api with
    | ApiResult.success =>
      { requests := [{ method := "POST", url := "/api/leads", body := f }],
        toast := some successToast, formState := defaultValues }
    | ApiResult.failure =>
      { requests := [{ method := "POST", url := "/api/leads", body := f }],
        toast := some errorToast, formState := f }
  else
    { requests := [], toast := none, formState := f }

/-! ## The Supabase configuration loader -/

/-- The parsed body of `GET /api/config`, with `ok` the HTTP success flag.
`none` models an absent field; JavaScript truthiness makes an absent field
and an empty string behave alike. -/
structure ConfigResponse where
  ok : Bool
  supabaseUrl : Option String
  supabaseAnonKey : Option String
deriving DecidableEq, Repr

/-- JavaScript truthiness of an optional string field (`!config.field`
fails for both a missing field and an empty string). -/
def truthy : Option String → Bool
  | none => false
  | some s => s ≠ ""

/-- The handle produced by `createClient(supabaseUrl, supabaseAnonKey)`. -/
structure SupabaseClient where
  url : String
  anonKey : String
deriving DecidableEq, Repr

/-- The module-level `supabaseClient` variable: `none` is Uninitialized,
`some c` is Ready. -/
abbrev SupState := Option SupabaseClient

/-- `initSupabase` against response `resp`, starting from cache state `st`:
throws if the fetch was not ok or a credential field is falsy (leaving the
cache untouched); otherwise creates, caches and returns the client. -/
def initSupabase (resp : ConfigResponse) (st : SupState) :
    SupState × Except String SupabaseClient :=
  if !resp.ok then
    (st, Except.error "Failed to fetch Supabase configuration")
  else if !truthy resp.supabaseUrl || !truthy resp.supabaseAnonKey then
    (st, Except.error "Supabase credentials not found in server config")
  else
    (some { url := resp.supabaseUrl.getD "", anonKey := resp.supabaseAnonKey.getD "" },
     Except.ok { url := resp.supabaseUrl.getD "", anonKey := resp.supabaseAnonKey.getD "" })

/-- What one `getSupabase()` call yields: the new cache state, the returned
or thrown value, and whether `/api/config` was fetched. -/
structure GetResult where
  state : SupState
  result : Except String SupabaseClient
  fetched : Bool
deriving Repr

/-- `getSupabase` against response `resp`: a cached client is returned
without fetching; otherwise `initSupabase` runs. -/
def getSupabase (resp : ConfigResponse) : SupState → GetResult
  | some c => { state := some c, result := Except.ok c, fetched := false }
  | none =>
    let (st, r) := initSupabase resp none
    { state := st, result := r, fetched := true }

/-- Whether an `initSupabase` / `getSupabase` outcome is a thrown error. -/
def isErr : Except String SupabaseClient → Bool
  | Except.error _ => true
  | Except.ok _ => false

/-! ## The App component -/

/-- What `App` renders. -/
inductive AppView
  | loading
  | errorView (msg : String)
  | main
deriving DecidableEq, Repr

/-- The `setupSupabase` effect of `App`: success sets the initialized flag,
failure records the fixed error message. -/
def setupSupabase (r : Except String SupabaseClient) : Bool × Option String :=
  match r with
  | Except.ok _ => (true, none)
  | Except.error _ => (false, some "Failed to initialize backend services")

/-- `App`'s render: loading while neither initialized nor failed, the
blocking error page when `initError` is set, the main router otherwise. -/
def appView (isInit : Bool) (initError : Option String) : AppView :=
  if !isInit && initError.isNone then AppView.loading
  else
    match initError with
    | some m => AppView.errorView m
    | none => AppView.main

/-! ## Concrete payloads -/

/-- A fully valid payload. -/
def validPayload : LeadForm :=
  { parentName := "Anjali Patel", childGrade := "Lower primary", schoolName := some "",
    city := "Pune", mobileNumber := "9876543210", email := some "a@b.co" }

/-- The spec's short-mobile scenario payload. -/
def shortMobilePayload : LeadForm :=
  { parentName := "Anjali Patel", childGrade := "Lower primary", schoolName := none,
    city := "Pune", mobileNumber := "98765", email := none }

/-- A payload whose `parentName` contains a tab: neither an ASCII letter nor
the space character, yet inside the `\s` class. -/
def tabNamePayload : LeadForm :=
  { parentName := "Anjali\tPatel", childGrade := "Lower primary", schoolName := none,
    city := "Pune", mobileNumber := "9876543210", email := none }

/-- A payload whose `childGrade` lies outside both `gradeOptions` and the
dropdown's `SelectItem` values. -/
def offGradePayload : LeadForm :=
  { parentName := "Anjali Patel", childGrade := "Kindergarten", schoolName := none,
    city := "Pune", mobileNumber := "9876543210", email := none }

/-- The spec's happy-path scenario payload, `email` the empty string. -/
def scenarioPayload : LeadForm :=
  { parentName := "Anjali Patel", childGrade := "Class 5", schoolName := none,
    city := "Pune", mobileNumber := "9876543210", email := some "" }

/-! ## Helper lemmas -/

lemma requests_of_invalid (f : LeadForm) (api : ApiResult) (h : validate f ≠ []) :
    (handleSubmit f api).requests = [] := by
  simp [handleSubmit, h]

lemma all_eq_false_of_mem {p : Char → Bool} {l : List Char} {c : Char}
    (hc : c ∈ l) (h : p c = false) : l.all p = false :=
  List.all_eq_false.mpr ⟨c, hc, by simp [h]⟩

lemma utf16Len_eq_zero_iff (s : String) : utf16Len s = 0 ↔ s = "" := by
  rw [String.ext_iff]
  cases s with
  | mk l =>
    cases l with
    | nil => simp [utf16Len]
    | cons c t =>
      simp [utf16Len]
      intro h
      split at h <;> omega

lemma checkChildGrade_eq_nil_iff (s : String) : checkChildGrade s = [] ↔ s ≠ "" := by
  unfold checkChildGrade
  rcases eq_or_ne s "" with rfl | hs
  · simp [utf16Len]
  · have : ¬ utf16Len s < 1 := by
      have := (not_iff_not.mpr (utf16Len_eq_zero_iff s)).mpr hs
      omega
    simp [this, hs]

lemma field_checkParentName {fld : Field} {m s : String}
    (h : (fld, m) ∈ checkParentName s) : fld = Field.parentName := by
  unfold checkParentName at h
  rw [List.mem_append] at h
  rcases h with h | h <;> split at h <;> simp_all

lemma field_checkSchoolName {fld : Field} {m : String} {o : Option String}
    (h : (fld, m) ∈ checkSchoolName o) : fld = Field.schoolName := by
  unfold checkSchoolName at h
  rcases o with _ | s
  · simp at h
  · split at h <;> simp_all

lemma field_checkCity {fld : Field} {m s : String}
    (h : (fld, m) ∈ checkCity s) : fld = Field.city := by
  unfold checkCity at h
  rw [List.mem_append] at h
  rcases h with h | h <;> split at h <;> simp_all

lemma field_checkMobileNumber {fld : Field} {m s : String}
    (h : (fld, m) ∈ checkMobileNumber s) : fld = Field.mobileNumber := by
  unfold checkMobileNumber at h
  split at h <;> simp_all

lemma field_checkEmail {fld : Field} {m : String} {o : Option String}
    (h : (fld, m) ∈ checkEmail o) : fld = Field.email := by
  unfold checkEmail at h
  rcases o with _ | s
  · simp at h
  · split at h <;> simp_all

lemma mem_validate_childGrade {f : LeadForm} {m : String}
    (h : (Field.childGrade, m) ∈ validate f) :
    (Field.childGrade, m) ∈ checkChildGrade f.childGrade := by
  unfold validate at h
  simp only [List.mem_append] at h
  rcases h with ((((h | h) | h) | h) | h) | h
  · exact absurd (field_checkParentName h) (by simp)
  · exact h
  · exact absurd (field_checkSchoolName h) (by simp)
  · exact absurd (field_checkCity h) (by simp)
  · exact absurd (field_checkMobileNumber h) (by simp)
  · exact absurd (field_checkEmail h) (by simp)

/-! ## Claim theorems -/

/-- C1: whenever `mobileNumber` is not a string of exactly 10 decimal digits
(the `/^\d{10}$/` pattern fails), validation reports a field-level error on
`mobileNumber` and the submit flow issues no network request. -/
theorem invalid_mobile_rejected (f : LeadForm) (api : ApiResult)
    (h : matchesTenDigits f.mobileNumber = false) :
    (Field.mobileNumber, "Must be exactly 10 digits") ∈ validate f ∧
    (handleSubmit f api).requests = [] := by
  have h5 : (Field.mobileNumber, "Must be exactly 10 digits") ∈
      checkMobileNumber f.mobileNumber := by
    simp [checkMobileNumber, h]
  have hm : (Field.mobileNumber, "Must be exactly 10 digits") ∈ validate f := by
    unfold validate
    simp only [List.mem_append]
    exact Or.inl (Or.inr h5)
  exact ⟨hm, requests_of_invalid f api (List.ne_nil_of_mem hm)⟩

/-- Witness for C1 at the spec's `mobileNumber = "98765"` scenario. -/
theorem invalid_mobile_rejected_witness :
    (Field.mobileNumber, "Must be exactly 10 digits") ∈ validate shortMobilePayload ∧
    (handleSubmit shortMobilePayload ApiResult.success).requests = [] :=
  invalid_mobile_rejected shortMobilePayload ApiResult.success (by decide)

/-- C2: a payload that passes validation is submitted as exactly one
`POST /api/leads` request carrying that payload — whatever the api outcome,
no second request occurs — and a successful response is surfaced as the
success toast. -/
theorem valid_payload_single_post (f : LeadForm) (h : validate f = []) :
    (∀ api, (handleSubmit f api).requests =
      [{ method := "POST", url := "/api/leads", body := f }]) ∧
    (handleSubmit f ApiResult.success).toast = some successToast := by
  refine ⟨fun api => ?_, ?_⟩
  · cases api <;> simp [handleSubmit, h]
  · simp [handleSubmit, h]

/-- Witness for C2 at a concrete valid payload. -/
theorem valid_payload_single_post_witness :
    (handleSubmit validPayload ApiResult.success).requests =
      [{ method := "POST", url := "/api/leads", body := validPayload }] ∧
    (handleSubmit validPayload ApiResult.success).toast = some successToast :=
  ⟨(valid_payload_single_post validPayload (by decide)).1 ApiResult.success,
   (valid_payload_single_post validPayload (by decide)).2⟩

/-- C9: when the insert call fails, one (and only one) request was issued —
nothing is retried — the failure is surfaced as the destructive toast, and
the form values are left exactly as the user filled them. -/
theorem insert_failure_surfaced (f : LeadForm) (h : validate f = []) :
    handleSubmit f ApiResult.failure =
      { requests := [{ method := "POST", url := "/api/leads", body := f }],
        toast := some errorToast, formState := f } := by
  simp [handleSubmit, h]

/-- Witness for C9 at a concrete valid payload. -/
theorem insert_failure_surfaced_witness :
    handleSubmit validPayload ApiResult.failure =
      { requests := [{ method := "POST", url := "/api/leads", body := validPayload }],
        toast := some errorToast, formState := validPayload } :=
  insert_failure_surfaced validPayload (by decide)

/-- C10: a successful submission resets every field to its default — the
empty string for each text field and for `childGrade` — and a second submit
of the reset form issues no request. -/
theorem success_resets_form (f : LeadForm) (api : ApiResult) (h : validate f = []) :
    (handleSubmit f ApiResult.success).formState = defaultValues ∧
    defaultValues =
      { parentName := "", childGrade := "", schoolName := some "",
        city := "", mobileNumber := "", email := some "" } ∧
    (handleSubmit defaultValues api).requests = [] :=
  ⟨by simp [handleSubmit, h], rfl,
   requests_of_invalid defaultValues api (by decide)⟩

/-- Witness for C10 at a concrete valid payload. -/
theorem success_resets_form_witness :
    (handleSubmit validPayload ApiResult.success).formState = defaultValues ∧
    defaultValues =
      { parentName := "", childGrade := "", schoolName := some "",
        city := "", mobileNumber := "", email := some "" } ∧
    (handleSubmit defaultValues ApiResult.success).requests = [] :=
  success_resets_form validPayload ApiResult.success (by decide)

/-- C3 counterexample: `tabNamePayload.parentName` contains a tab, which is
neither an ASCII letter nor the space character, yet the payload passes
validation and a request is issued — the claim as stated fails. -/
theorem alpha_space_claim_counterexample :
    (∃ c ∈ tabNamePayload.parentName.data, isAsciiAlpha c = false ∧ c ≠ ' ') ∧
    validate tabNamePayload = [] ∧
    (handleSubmit tabNamePayload ApiResult.success).requests ≠ [] := by
  decide

/-- C3 (amended): whenever `parentName`, `city`, or a present `schoolName`
contains a character outside the `[a-zA-Z\s]` class — neither an ASCII
letter nor a JavaScript `\s` whitespace character — validation fails and the
submit flow issues no network request. -/
theorem alpha_space_rejected (f : LeadForm) (api : ApiResult)
    (h : (∃ c ∈ f.parentName.data, isAlphaOrSpace c = false) ∨
         (∃ c ∈ f.city.data, isAlphaOrSpace c = false) ∨
         (∃ s, f.schoolName = some s ∧ ∃ c ∈ s.data, isAlphaOrSpace c = false)) :
    validate f ≠ [] ∧ (handleSubmit f api).requests = [] := by
  have hne : validate f ≠ [] := by
    rcases h with ⟨c, hc, hb⟩ | ⟨c, hc, hb⟩ | ⟨s, hs, c, hc, hb⟩
    · have hall : f.parentName.data.all isAlphaOrSpace = false :=
        all_eq_false_of_mem hc hb
      have hmp : matchesAlphaSpacePlus f.parentName = false := by
        simp [matchesAlphaSpacePlus, hall]
      have hp : (Field.parentName, "Only alphabets allowed") ∈
          checkParentName f.parentName := by
        unfold checkParentName
        rw [List.mem_append]
        exact Or.inr (by simp [hmp])
      apply List.ne_nil_of_mem (a := (Field.parentName, "Only alphabets allowed"))
      unfold validate
      simp only [List.mem_append]
      exact Or.inl (Or.inl (Or.inl (Or.inl (Or.inl hp))))
    · have hall : f.city.data.all isAlphaOrSpace = false :=
        all_eq_false_of_mem hc hb
      have hmp : matchesAlphaSpacePlus f.city = false := by
        simp [matchesAlphaSpacePlus, hall]
      have hp : (Field.city, "Only alphabets allowed") ∈ checkCity f.city := by
        unfold checkCity
        rw [List.mem_append]
        exact Or.inr (by simp [hmp])
      apply List.ne_nil_of_mem (a := (Field.city, "Only alphabets allowed"))
      unfold validate
      simp only [List.mem_append]
      exact Or.inl (Or.inl (Or.inr hp))
    · have hall : s.data.all isAlphaOrSpace = false :=
        all_eq_false_of_mem hc hb
      have hp : (Field.schoolName, "Only alphabets allowed") ∈
          checkSchoolName f.schoolName := by
        rw [hs]
        unfold checkSchoolName
        simp [matchesAlphaSpaceStar, hall]
      apply List.ne_nil_of_mem (a := (Field.schoolName, "Only alphabets allowed"))
      unfold validate
      simp only [List.mem_append]
      exact Or.inl (Or.inl (Or.inl (Or.inr hp)))
  exact ⟨hne, requests_of_invalid f api hne⟩

/-- Witness for the amended C3 at a payload whose city contains a digit. -/
theorem alpha_space_rejected_witness :
    validate { parentName := "Anjali Patel", childGrade := "Lower primary",
               schoolName := none, city := "Pune42", mobileNumber := "9876543210",
               email := none } ≠ [] ∧
    (handleSubmit { parentName := "Anjali Patel", childGrade := "Lower primary",
                    schoolName := none, city := "Pune42", mobileNumber := "9876543210",
                    email := none } ApiResult.success).requests = [] :=
  alpha_space_rejected _ ApiResult.success (Or.inr (Or.inl (by decide)))

/-- C4 counterexample: `"Kindergarten"` is outside `gradeOptions` and
outside the dropdown's `SelectItem` values, yet the payload passes
validation and is POSTed — grade membership is not validated. -/
theorem grade_membership_counterexample :
    offGradePayload.childGrade ∉ gradeOptions ∧
    offGradePayload.childGrade ∉ gradeSelectItems ∧
    validate offGradePayload = [] ∧
    (handleSubmit offGradePayload ApiResult.success).requests =
      [{ method := "POST", url := "/api/leads", body := offGradePayload }] := by
  decide

/-- C4 (amended): the only `childGrade` validation is nonemptiness
(`z.string().min(1)`): the check passes exactly when `childGrade` is
nonempty, any field-level `childGrade` error implies the grade was empty,
and an empty grade stops the submission before any network request;
membership in the enumerated grade sets is enforced only by the dropdown
UI. -/
theorem grade_check_nonempty (f : LeadForm) (api : ApiResult) :
    (checkChildGrade f.childGrade = [] ↔ f.childGrade ≠ "") ∧
    ((∃ m, (Field.childGrade, m) ∈ validate f) → f.childGrade = "") ∧
    (f.childGrade = "" → (handleSubmit f api).requests = []) := by
  refine ⟨checkChildGrade_eq_nil_iff _, ?_, ?_⟩
  · rintro ⟨m, hm⟩
    have hmem := mem_validate_childGrade hm
    by_contra hne
    rw [(checkChildGrade_eq_nil_iff _).mpr hne] at hmem
    simp at hmem
  · intro hempty
    apply requests_of_invalid
    have hcg : (Field.childGrade, "Please select a grade") ∈
        checkChildGrade f.childGrade := by
      rw [hempty]
      decide
    apply List.ne_nil_of_mem (a := (Field.childGrade, "Please select a grade"))
    unfold validate
    simp only [List.mem_append]
    exact Or.inl (Or.inl (Or.inl (Or.inl (Or.inr hcg))))

/-- Witness for the amended C4 at the all-empty default values. -/
theorem grade_check_nonempty_witness :
    (checkChildGrade defaultValues.childGrade = [] ↔ defaultValues.childGrade ≠ "") ∧
    ((∃ m, (Field.childGrade, m) ∈ validate defaultValues) →
      defaultValues.childGrade = "") ∧
    (defaultValues.childGrade = "" →
      (handleSubmit defaultValues ApiResult.success).requests = []) :=
  grade_check_nonempty defaultValues ApiResult.success

/-- C5: the spec's happy-path scenario payload, `email` the empty string, is
in fact rejected by the code: `z.string().email().optional()` fails on `""`,
the sole issue is a field error on `email`, and no request is issued. -/
theorem scenario_empty_email_rejected :
    validate scenarioPayload = [(Field.email, "Please enter a valid email address")] ∧
    (handleSubmit scenarioPayload ApiResult.success).requests = [] ∧
    (handleSubmit scenarioPayload ApiResult.success).toast = none := by
  decide

/-! ## The persistence mapping (modelled from the spec) -/

/-- Modelled from the spec: one row of the backend `leads` table, with the
snake-case column names of §6 (minus the server-assigned `id` and
`created_at`). The insertion code behind `POST /api/leads` is not under
`src/`. -/
structure LeadRow where
  parent_name : String
  child_grade : String
  school_name : Option String
  city : String
  mobile_number : String
  email : Option String
deriving DecidableEq, Repr

/-- Modelled from the spec: normalization of an empty optional string to
"absent" before persistence. -/
def normEmpty (o : Option String) : Option String :=
  match o with
  | none => none
  | some s => if s = "" then none else some s

/-- Modelled from the spec: the lead-submission service's row mapping — the
code that "maps camel-case fields to the backend's snake-case column names,
normalizes empty optional strings to absent" is not under `src/`. -/
def toRow (f : LeadForm) : LeadRow :=
  { parent_name := f.parentName, child_grade := f.childGrade,
    school_name := normEmpty f.schoolName, city := f.city,
    mobile_number := f.mobileNumber, email := normEmpty f.email }

/-- C6: in the persisted row, an optional field holding the empty string
becomes absent — and only then — while non-empty optional values and all
required fields pass through unchanged. -/
theorem optional_empty_normalized (f : LeadForm) :
    ((toRow f).school_name = none ↔ f.schoolName = none ∨ f.schoolName = some "") ∧
    ((toRow f).email = none ↔ f.email = none ∨ f.email = some "") ∧
    (∀ s, f.schoolName = some s → s ≠ "" → (toRow f).school_name = some s) ∧
    (∀ s, f.email = some s → s ≠ "" → (toRow f).email = some s) ∧
    (toRow f).parent_name = f.parentName ∧
    (toRow f).child_grade = f.childGrade ∧
    (toRow f).city = f.city ∧
    (toRow f).mobile_number = f.mobileNumber := by
  refine ⟨?_, ?_, ?_, ?_, rfl, rfl, rfl, rfl⟩
  · rcases hs : f.schoolName with _ | s
    · simp [toRow, normEmpty, hs]
    · rcases eq_or_ne s "" with rfl | h
      · simp [toRow, normEmpty, hs]
      · simp [toRow, normEmpty, hs, h]
  · rcases hs : f.email with _ | s
    · simp [toRow, normEmpty, hs]
    · rcases eq_or_ne s "" with rfl | h
      · simp [toRow, normEmpty, hs]
      · simp [toRow, normEmpty, hs, h]
  · intro s hs h
    simp [toRow, normEmpty, hs, h]
  · intro s hs h
    simp [toRow, normEmpty, hs, h]

/-- Witness for C6 at a payload with an empty school name and a non-empty
email. -/
theorem optional_empty_normalized_witness :
    (toRow validPayload).school_name = none ∧
    (toRow validPayload).email = some "a@b.co" :=
  ⟨(optional_empty_normalized validPayload).1.mpr (Or.inr rfl),
   (optional_empty_normalized validPayload).2.2.2.1 "a@b.co" rfl (by decide)⟩

/-! ## Configuration-loader lemmas -/

lemma getSupabase_none_eq (resp : ConfigResponse) :
    getSupabase resp none =
      { state := (initSupabase resp none).1, result := (initSupabase resp none).2,
        fetched := true } :=
  rfl

lemma initSupabase_ok_state {resp : ConfigResponse} {st : SupState} {c : SupabaseClient}
    (h : (initSupabase resp st).2 = Except.ok c) : (initSupabase resp st).1 = some c := by
  unfold initSupabase at h ⊢
  split at h
  next hc =>
    simp at h
  next hc =>
    split at h
    next hc2 => simp at h
    next hc2 =>
      rw [if_neg hc, if_neg hc2]
      simp_all

lemma initSupabase_err_state {resp : ConfigResponse} {st : SupState}
    (h : isErr (initSupabase resp st).2 = true) : (initSupabase resp st).1 = st := by
  unfold initSupabase at h ⊢
  split at h
  next hc => rw [if_pos hc]
  next hc =>
    split at h
    next hc2 => rw [if_neg hc, if_pos hc2]
    next hc2 => simp [isErr] at h

lemma initSupabase_err_iff (resp : ConfigResponse) (st : SupState) :
    isErr (initSupabase resp st).2 = true ↔
      resp.ok = false ∨ truthy resp.supabaseUrl = false ∨
      truthy resp.supabaseAnonKey = false := by
  constructor
  · intro herr
    by_contra hcon
    push_neg at hcon
    obtain ⟨h1, h2, h3⟩ := hcon
    have hok : resp.ok = true := by
      cases hr : resp.ok
      · exact absurd hr h1
      · rfl
    have hu : truthy resp.supabaseUrl = true := by
      cases hr : truthy resp.supabaseUrl
      · exact absurd hr h2
      · rfl
    have hk : truthy resp.supabaseAnonKey = true := by
      cases hr : truthy resp.supabaseAnonKey
      · exact absurd hr h3
      · rfl
    simp [initSupabase, hok, hu, hk, isErr] at herr
  · intro h
    rcases h with h | h | h
    · simp [initSupabase, h, isErr]
    · cases hok : resp.ok <;> simp [initSupabase, hok, h, isErr]
    · cases hok : resp.ok <;> cases hu : truthy resp.supabaseUrl <;>
        simp [initSupabase, hok, hu, h, isErr]

/-- C7: the loader initializes at most once — a cached client is returned
as-is with no configuration fetch; an uncached call fetches; a successful
initialization caches the returned client, and every later call returns
that same handle without fetching; a failed initialization leaves the state
Uninitialized, so the next call fetches again. -/
theorem supabase_cache_once (resp resp' : ConfigResponse) (c : SupabaseClient) :
    getSupabase resp (some c) =
      { state := some c, result := Except.ok c, fetched := false } ∧
    (getSupabase resp none).fetched = true ∧
    (∀ c', (getSupabase resp none).result = Except.ok c' →
      (getSupabase resp none).state = some c' ∧
      getSupabase resp' (some c') =
        { state := some c', result := Except.ok c', fetched := false }) ∧
    (isErr (getSupabase resp none).result = true →
      (getSupabase resp none).state = none ∧
      (getSupabase resp' (getSupabase resp none).state).fetched = true) := by
  refine ⟨rfl, rfl, ?_, ?_⟩
  · intro c' hc'
    rw [getSupabase_none_eq] at hc' ⊢
    exact ⟨initSupabase_ok_state hc', rfl⟩
  · intro herr
    rw [getSupabase_none_eq] at herr ⊢
    have hst := initSupabase_err_state herr
    rw [hst]
    exact ⟨rfl, rfl⟩

/-- Witness for C7: a good response initializes and caches; the cached
client is then returned without a fetch. -/
theorem supabase_cache_once_witness :
    (getSupabase { ok := true, supabaseUrl := some "u", supabaseAnonKey := some "k" }
        none).state = some { url := "u", anonKey := "k" } ∧
    getSupabase { ok := false, supabaseUrl := none, supabaseAnonKey := none }
        (some { url := "u", anonKey := "k" }) =
      { state := some { url := "u", anonKey := "k" },
        result := Except.ok { url := "u", anonKey := "k" }, fetched := false } :=
  ⟨((supabase_cache_once
      { ok := true, supabaseUrl := some "u", supabaseAnonKey := some "k" }
      { ok := false, supabaseUrl := none, supabaseAnonKey := none }
      { url := "u", anonKey := "k" }).2.2.1
      { url := "u", anonKey := "k" } rfl).1,
   (supabase_cache_once
      { ok := false, supabaseUrl := none, supabaseAnonKey := none }
      { ok := false, supabaseUrl := none, supabaseAnonKey := none }
      { url := "u", anonKey := "k" }).1⟩

/-- C8: initialization throws — caching no client — exactly when the fetch
was not ok or a credential field is falsy (absent or empty, the code's
`!config.field` test); in particular a response body whose
`supabaseAnonKey` is absent makes `getSupabase` fail and `App` render the
blocking error page. -/
theorem config_failure_iff (resp : ConfigResponse) (st : SupState) :
    (isErr (initSupabase resp st).2 = true ↔
      resp.ok = false ∨ truthy resp.supabaseUrl = false ∨
      truthy resp.supabaseAnonKey = false) ∧
    (isErr (initSupabase resp st).2 = true → (initSupabase resp st).1 = st) ∧
    (resp.supabaseAnonKey = none →
      isErr (getSupabase resp none).result = true ∧
      appView (setupSupabase (getSupabase resp none).result).1
              (setupSupabase (getSupabase resp none).result).2 =
        AppView.errorView "Failed to initialize backend services") := by
  refine ⟨initSupabase_err_iff resp st, fun h => initSupabase_err_state h, ?_⟩
  intro hk
  have hkf : truthy resp.supabaseAnonKey = false := by rw [hk]; rfl
  have herr : isErr (getSupabase resp none).result = true := by
    rw [getSupabase_none_eq]
    exact (initSupabase_err_iff resp none).mpr (Or.inr (Or.inr hkf))
  refine ⟨herr, ?_⟩
  rcases hr : (getSupabase resp none).result with e | c
  · simp [setupSupabase, appView]
  · rw [hr] at herr
    simp [isErr] at herr

/-- Witness for C8 at a response body missing `supabaseAnonKey`. -/
theorem config_failure_iff_witness :
    isErr (getSupabase { ok := true, supabaseUrl := some "u", supabaseAnonKey := none }
        none).result = true ∧
    appView
      (setupSupabase (getSupabase
        { ok := true, supabaseUrl := some "u", supabaseAnonKey := none } none).result).1
      (setupSupabase (getSupabase
        { ok := true, supabaseUrl := some "u", supabaseAnonKey := none } none).result).2 =
      AppView.errorView "Failed to initialize backend services" :=
  (config_failure_iff { ok := true, supabaseUrl := some "u", supabaseAnonKey := none }
    none).2.2 rfl

end Halorides
